import Mathlib

/-!
Verification of the accounts subsystem (registration, email verification,
authentication by username-or-email, favourite/save toggles, member-resource
preview) of the djangify/aimarketing repository.

The relational store is embedded shallowly: tables are lists of records, a
request handler is a function from the store (and request data) to a response
together with the updated store. Wall-clock times are integers counting
seconds; the framework's ORM lookups (`get`, `filter`, `order_by`), the
many-to-many operations (`add`, `remove`) and the post-save signal dispatch
are spelled out as list operations that follow the source code.
-/

/-- An identity record (`django.contrib.auth.models.User`), restricted to the
fields this subsystem reads or writes: primary key, the two lookup fields,
the stored credential (password checking is modelled as comparison with the
stored secret), and the active flag. -/
structure User where
  id : Nat
  username : String
  email : String
  password : String
  is_active : Bool
deriving DecidableEq

/-- `accounts.models.UserProfile`: one-to-one extension of a user, with the
verified flag and the three many-to-many favourite/saved relations
(products are identified by slug, prompts by numeric id, templates by slug).
Business-text fields are omitted: no claim reads them. -/
structure UserProfile where
  userId : Nat
  verified : Bool
  favourite_products : List String
  saved_prompts : List Nat
  saved_templates : List String
deriving DecidableEq

/-- `accounts.models.EmailVerificationToken`: one token record per user,
carrying the random token value (the UUID is modelled as a number), the
creation timestamp, and the reminder bookkeeping fields. -/
structure EmailVerificationToken where
  userId : Nat
  token : Nat
  created_at : Int
  reminder_sent : Bool
  reminder_sent_at : Option Int
deriving DecidableEq

/-- The token validity window of `EmailVerificationToken.is_valid`:
`timedelta(hours=24)`, in seconds. -/
def TOKEN_LIFETIME_SECONDS : Int := 24 * 60 * 60

/-- `EmailVerificationToken.is_valid`: the source returns
`self.created_at >= timezone.now() - timedelta(hours=24)`. -/
def EmailVerificationToken.is_valid (t : EmailVerificationToken) (now : Int) : Bool :=
  decide (t.created_at ≥ now - TOKEN_LIFETIME_SECONDS)

/-- The relational store: the three tables this subsystem touches. -/
structure DB where
  users : List User
  profiles : List UserProfile
  tokens : List EmailVerificationToken
deriving DecidableEq

/-- A convenient token-record constructor for a token freshly created by
`EmailVerificationToken.objects.create(user=user)`: the reminder fields take
their model defaults. -/
def freshToken (userId tokenValue : Nat) (now : Int) : EmailVerificationToken :=
  { userId := userId, token := tokenValue, created_at := now,
    reminder_sent := false, reminder_sent_at := none }

/-! ## Post-save signals (`accounts/models.py`)

Saving a `User` fires the two `post_save` receivers in registration order:
`create_user_profile` (creates a profile when the save was a creation) and
`save_user_profile` (re-saves the profile, creating it if missing). A save of
an existing record is an update; saving a record whose id is absent is a
creation. A `UserProfile` created by either receiver takes the model
defaults, in particular `verified = False` and empty relations. -/

/-- Default-profile record created by the signal receivers
(`UserProfile.objects.create(user=instance)`). -/
def defaultProfile (userId : Nat) : UserProfile :=
  { userId := userId, verified := false,
    favourite_products := [], saved_prompts := [], saved_templates := [] }

/-- Whether a user row with this id exists in the user table (decides the
`created` flag that `post_save` hands to its receivers). -/
def userExists (users : List User) (uid : Nat) : Bool :=
  users.any (fun u => u.id == uid)

/-- Whether a profile row owned by this user exists in the profile table
(the lookup behind `instance.profile`, whose failure raises
`RelatedObjectDoesNotExist`). -/
def profileExists (profiles : List UserProfile) (uid : Nat) : Bool :=
  profiles.any (fun p => p.userId == uid)

/-- `user.save()` together with the two `post_save` receivers of
`accounts/models.py`: persist the row (insert on creation, overwrite on
update), then `create_user_profile` creates a profile iff `created`, then
`save_user_profile` re-saves the profile and creates it when the lookup
fails. Re-saving an existing profile writes back its own fields, so it
leaves the store unchanged. -/
def saveUser (db : DB) (u : User) : DB :=
  let created := !(userExists db.users u.id)
  let db1 : DB :=
    if created then { db with users := db.users ++ [u] }
    else { db with users := db.users.map (fun v => if v.id == u.id then u else v) }
  let db2 : DB :=
    if created then { db1 with profiles := db1.profiles ++ [defaultProfile u.id] }
    else db1
  if profileExists db2.profiles u.id then db2
  else { db2 with profiles := db2.profiles ++ [defaultProfile u.id] }

/-! ## Email verification (`accounts/views.py`) -/

/-- Outcome of `verify_email`. The source renders the same
`email_verification_invalid.html` template for both `invalidNotFound`
(the `DoesNotExist` branch) and `invalidExpired` (found but `is_valid()`
false); the constructors record which internal path produced the page.
`raisedMultipleObjectsReturned` is the uncaught exception `objects.get`
raises when several rows match. -/
inductive VerifyOutcome
  | verified
  | invalidExpired
  | invalidNotFound
  | raisedMultipleObjectsReturned
deriving DecidableEq

/-- `verify_email(request, token)`: look the token value up with
`objects.get(token=token)` (zero rows → `DoesNotExist`, caught; several rows
→ `MultipleObjectsReturned`, uncaught). On a unique valid match it sets the
owning user's `is_active`, sets the owning profile's `verified`, deletes the
token row, and renders the verified page; otherwise the state is untouched.
The `get` guaranteed a unique match, so deleting by token value deletes
exactly the matched row. -/
def verify_email (db : DB) (tokenValue : Nat) (now : Int) : VerifyOutcome × DB :=
  match db.tokens.filter (fun t => t.token == tokenValue) with
  | [] => (.invalidNotFound, db)
  | [t] =>
    if t.is_valid now then
      (.verified,
        { users := db.users.map
            (fun u => if u.id == t.userId then { u with is_active := true } else u),
          profiles := db.profiles.map
            (fun p => if p.userId == t.userId then { p with verified := true } else p),
          tokens := db.tokens.filter (fun t2 => !(t2.token == tokenValue)) })
    else (.invalidExpired, db)
  | _ :: _ :: _ => (.raisedMultipleObjectsReturned, db)

/-- Result of the inline, blocking mail-delivery call (`send_mail` with
`fail_silently=False`): it either returns or raises. -/
inductive MailResult
  | sent
  | raisedDeliveryError
deriving DecidableEq

/-- `send_verification_email(request, user)`: inside one `try`, delete every
existing token row of this user, create a fresh one, then send the mail.
A raised delivery error is caught by the bare `except` and turned into
`False`; the token created before the raise is not rolled back. Returns the
updated store and the function's boolean result. -/
def send_verification_email (db : DB) (userId tokenValue : Nat) (now : Int)
    (mail : MailResult) : DB × Bool :=
  let db1 : DB :=
    { db with tokens :=
        db.tokens.filter (fun t => !(t.userId == userId)) ++ [freshToken userId tokenValue now] }
  match mail with
  | .sent => (db1, true)
  | .raisedDeliveryError => (db1, false)

/-- Response of `register_view`: redirect to `accounts:verification_sent` on
a valid POST, re-render the registration page otherwise. -/
inductive RegisterResponse
  | redirectVerificationSent
  | renderRegister
deriving DecidableEq

/-- `register_view` on a POST: when the form validates, save the new user
with `is_active = False` (firing the post-save signals), attempt the
verification mail (its boolean result is ignored), and redirect to the
verification-sent page. The form itself is framework plumbing: it is
abstracted as the validity flag plus the user record it would build. -/
def register_view (db : DB) (newUser : User) (tokenValue : Nat) (now : Int)
    (formValid : Bool) (mail : MailResult) : RegisterResponse × DB :=
  if formValid then
    let db1 := saveUser db { newUser with is_active := false }
    let db2 := (send_verification_email db1 newUser.id tokenValue now mail).1
    (.redirectVerificationSent, db2)
  else
    (.renderRegister, db)

/-! ## Authentication backend (`accounts/backends.py`) -/

/-- Result of `EmailOrUsernameModelBackend.authenticate`: the user on
success, `failure` when the method returns `None`, and the uncaught
`MultipleObjectsReturned` exception that `objects.get` raises when the
`Q(username__iexact=...) | Q(email__iexact=...)` lookup matches several
rows — only `DoesNotExist` is caught. -/
inductive AuthResult
  | authenticated (u : User)
  | failure
  | raisedMultipleObjectsReturned
deriving DecidableEq

/-- Case-insensitive normalisation of a string, as its character sequence
with every character lowered (`String.toLower` maps `Char.toLower` over the
string; the map is taken on `String.data` so that concrete instances
compute). -/
def lowerChars (s : String) : List Char :=
  s.data.map Char.toLower

/-- The `Q(username__iexact=username) | Q(email__iexact=username)` filter:
case-insensitive equality against either lookup field. -/
def matchesIdentifier (username : String) (u : User) : Bool :=
  lowerChars u.username == lowerChars username || lowerChars u.email == lowerChars username

/-- `user.check_password(password)`: the stored credential check, modelled as
comparison with the stored secret. -/
def check_password (u : User) (password : String) : Bool :=
  u.password == password

/-- `ModelBackend.user_can_authenticate`: rejects users whose `is_active`
flag is false. -/
def user_can_authenticate (u : User) : Bool :=
  u.is_active

/-- `EmailOrUsernameModelBackend.authenticate`: a unique case-insensitive
username-or-email match is then checked for password and eligibility; zero
matches return `None` via the caught `DoesNotExist`; several matches raise
`MultipleObjectsReturned` out of the method. -/
def authenticate (users : List User) (username password : String) : AuthResult :=
  match users.filter (matchesIdentifier username) with
  | [] => .failure
  | [u] =>
    if check_password u password && user_can_authenticate u then .authenticated u
    else .failure
  | _ :: _ :: _ => .raisedMultipleObjectsReturned

/-! ## Favourite / saved-item toggles (`accounts/views.py`)

Each toggle view resolves its catalog item with `get_object_or_404` (modelled
as membership in the catalog's identifier list; `none` is the 404), flips the
membership in the profile's many-to-many relation, and answers with JSON when
the `x-requested-with` header marks the request as XHR, a redirect
otherwise. -/

/-- Django many-to-many `add`: inserts the pair unless already related. -/
def m2mAdd [DecidableEq α] (rel : List α) (x : α) : List α :=
  if x ∈ rel then rel else rel ++ [x]

/-- Django many-to-many `remove`: deletes the pair if related. -/
def m2mRemove [DecidableEq α] (rel : List α) (x : α) : List α :=
  rel.filter (fun y => y ≠ x)

/-- Response of a toggle view: `jsonProduct` is the product endpoint's
`JsonResponse` carrying its `status` literal and the `is_favourite` boolean,
`jsonStatus` is the prompt/template endpoints' single-field `JsonResponse`,
and `redirect` is the non-XHR answer (to the referer or a fallback). -/
inductive ToggleResponse
  | jsonProduct (status : String) (is_favourite : Bool)
  | jsonStatus (status : String)
  | redirect
deriving DecidableEq

/-- `add_favourite_product(request, product_slug)`: 404 when no product has
the slug; otherwise remove the product from `favourite_products` when
present (reporting `is_favourite = False`) or add it (reporting `True`);
XHR requests get `JsonResponse({"status": "success", "is_favourite": ...})`. -/
def add_favourite_product (products : List String) (profile : UserProfile)
    (product_slug : String) (isXhr : Bool) : Option (ToggleResponse × UserProfile) :=
  if product_slug ∈ products then
    if product_slug ∈ profile.favourite_products then
      some ((if isXhr then ToggleResponse.jsonProduct "success" false else .redirect),
        { profile with favourite_products := m2mRemove profile.favourite_products product_slug })
    else
      some ((if isXhr then ToggleResponse.jsonProduct "success" true else .redirect),
        { profile with favourite_products := m2mAdd profile.favourite_products product_slug })
  else none

/-- `add_favourite_prompt(request, prompt_id)`: 404 when no prompt has the
id; otherwise remove from `saved_prompts` (status `removed`) or add (status
`saved`); XHR requests get `JsonResponse({"status": status})`. -/
def add_favourite_prompt (prompts : List Nat) (profile : UserProfile)
    (prompt_id : Nat) (isXhr : Bool) : Option (ToggleResponse × UserProfile) :=
  if prompt_id ∈ prompts then
    if prompt_id ∈ profile.saved_prompts then
      some ((if isXhr then ToggleResponse.jsonStatus "removed" else .redirect),
        { profile with saved_prompts := m2mRemove profile.saved_prompts prompt_id })
    else
      some ((if isXhr then ToggleResponse.jsonStatus "saved" else .redirect),
        { profile with saved_prompts := m2mAdd profile.saved_prompts prompt_id })
  else none

/-- `add_favourite_template(request, slug)`: 404 when no template has the
slug; otherwise remove from `saved_templates` (status `removed`) or add
(status `saved`); XHR requests get `JsonResponse({"status": status})`. -/
def add_favourite_template (templates : List String) (profile : UserProfile)
    (slug : String) (isXhr : Bool) : Option (ToggleResponse × UserProfile) :=
  if slug ∈ templates then
    if slug ∈ profile.saved_templates then
      some ((if isXhr then ToggleResponse.jsonStatus "removed" else .redirect),
        { profile with saved_templates := m2mRemove profile.saved_templates slug })
    else
      some ((if isXhr then ToggleResponse.jsonStatus "saved" else .redirect),
        { profile with saved_templates := m2mAdd profile.saved_templates slug })
  else none

/-! ## Member resources (`accounts/models.py`, `accounts/views.py`) -/

/-- `accounts.models.MemberResource`, restricted to the fields the preview
reads: creation timestamp, active flag, display order. -/
structure MemberResource where
  created_at : Int
  is_active : Bool
  order : Nat
deriving DecidableEq

/-- The `order_by("order", "-created_at")` key: display order ascending,
creation timestamp descending on ties. -/
def resourceOrder (a b : MemberResource) : Prop :=
  a.order < b.order ∨ (a.order = b.order ∧ b.created_at ≤ a.created_at)

instance : DecidableRel resourceOrder := fun a b => by
  unfold resourceOrder; infer_instance

instance : IsTotal MemberResource resourceOrder where
  total a b := by
    unfold resourceOrder
    rcases Nat.lt_trichotomy a.order b.order with h | h | h
    · exact Or.inl (Or.inl h)
    · rcases le_total b.created_at a.created_at with h2 | h2
      · exact Or.inl (Or.inr ⟨h, h2⟩)
      · exact Or.inr (Or.inr ⟨h.symm, h2⟩)
    · exact Or.inr (Or.inl h)

instance : IsTrans MemberResource resourceOrder where
  trans a b c hab hbc := by
    unfold resourceOrder at *
    rcases hab with h | ⟨he, hc⟩ <;> rcases hbc with h2 | ⟨he2, hc2⟩
    · exact Or.inl (h.trans h2)
    · exact Or.inl (he2 ▸ h)
    · exact Or.inl (he ▸ h2)
    · exact Or.inr ⟨he.trans he2, hc2.trans hc⟩

/-- `public_resources_preview`: the active resources, sorted by the model's
`order_by("order", "-created_at")`, truncated by the `[:4]` slice. The ORM's
sort is modelled by `List.insertionSort` over `resourceOrder`. -/
def public_resources_preview (resources : List MemberResource) : List MemberResource :=
  (List.insertionSort resourceOrder (resources.filter (fun r => r.is_active))).take 4

/-! ## Helper lemmas -/

/-- Deleting every token of a user and then creating a fresh one leaves that
user with exactly the fresh token, whatever the mail delivery does. -/
theorem send_verification_email_tokens (db : DB) (userId tokenValue : Nat) (now : Int)
    (mail : MailResult) :
    ((send_verification_email db userId tokenValue now mail).1.tokens.filter
      (fun t => t.userId == userId)) = [freshToken userId tokenValue now] := by
  cases mail <;>
    simp [send_verification_email, List.filter_append, List.filter_filter, freshToken]

/-- Mail delivery never touches the user table. -/
theorem send_verification_email_users (db : DB) (userId tokenValue : Nat) (now : Int)
    (mail : MailResult) :
    (send_verification_email db userId tokenValue now mail).1.users = db.users := by
  cases mail <;> rfl

/-- The user table after `saveUser`: the row is appended on creation and
written over the old row on update. -/
theorem saveUser_users (db : DB) (u : User) :
    (saveUser db u).users =
      if userExists db.users u.id then db.users.map (fun v => if v.id == u.id then u else v)
      else db.users ++ [u] := by
  unfold saveUser
  cases userExists db.users u.id <;> simp <;> split <;> rfl

/-- The profile table after `saveUser`: a default profile is appended
exactly when the user is new or had no profile row. -/
theorem saveUser_profiles (db : DB) (u : User) :
    (saveUser db u).profiles =
      if userExists db.users u.id then
        (if profileExists db.profiles u.id then db.profiles
         else db.profiles ++ [defaultProfile u.id])
      else db.profiles ++ [defaultProfile u.id] := by
  unfold saveUser
  cases he : userExists db.users u.id
  · have hpe : profileExists (db.profiles ++ [defaultProfile u.id]) u.id = true := by
      simp [profileExists, defaultProfile]
    simp [hpe]
  · cases hp : profileExists db.profiles u.id <;> simp [hp]

/-- The record handed to `saveUser` is present in the user table afterwards
(inserted when new, written over the old row otherwise). -/
theorem mem_users_saveUser (db : DB) (u : User) : u ∈ (saveUser db u).users := by
  rw [saveUser_users]
  cases he : userExists db.users u.id
  · simp
  · obtain ⟨v, hv, hvid⟩ := List.any_eq_true.1 he
    simp only [if_true]
    exact List.mem_map.2 ⟨v, hv, by simp [hvid]⟩

/-- An item is never related after its many-to-many `remove`. -/
theorem not_mem_m2mRemove [DecidableEq α] (l : List α) (x : α) : x ∉ m2mRemove l x := by
  simp [m2mRemove]

/-- Many-to-many `add` of an unrelated item appends the pair. -/
theorem m2mAdd_of_not_mem [DecidableEq α] {l : List α} {x : α} (h : x ∉ l) :
    m2mAdd l x = l ++ [x] := by
  simp [m2mAdd, h]

/-- Many-to-many `remove` of an unrelated item is a no-op. -/
theorem m2mRemove_of_not_mem [DecidableEq α] {l : List α} {x : α} (h : x ∉ l) :
    m2mRemove l x = l := by
  rw [m2mRemove, List.filter_eq_self]
  intro y hy
  simp only [decide_eq_true_eq]
  exact fun hxy => h (hxy ▸ hy)

/-- The item is related after its many-to-many `add`. -/
theorem mem_m2mAdd_self [DecidableEq α] (l : List α) (x : α) : x ∈ m2mAdd l x := by
  unfold m2mAdd
  split
  · assumption
  · simp

/-- Removing a related item and then adding it back restores the membership
relation. -/
theorem mem_m2mAdd_m2mRemove [DecidableEq α] {l : List α} {x : α} (h : x ∈ l) (y : α) :
    y ∈ m2mAdd (m2mRemove l x) x ↔ y ∈ l := by
  rw [m2mAdd_of_not_mem (not_mem_m2mRemove l x)]
  simp only [List.mem_append, m2mRemove, List.mem_filter, List.mem_singleton,
    decide_eq_true_eq]
  by_cases hy : y = x <;> simp [hy, h]

/-! ## Claim theorems -/

/-- C2 counterexample: the claim says a token created exactly 24h0s ago is
invalid, but `is_valid` uses `created_at >= now - 24h`, so at exactly
24 hours the token is still valid and `now - created_at < 24h` fails. -/
theorem C2_counterexample_boundary_24h :
    (freshToken 1 7 0).is_valid 86400 = true ∧
    ¬ ((86400 : Int) - (freshToken 1 7 0).created_at < TOKEN_LIFETIME_SECONDS) := by
  constructor
  · decide
  · decide

/-- C2 (amended): `is_valid(token)` is true iff `now - token.created_at`
is at most 24 hours; the boundary of exactly 24h0s is valid, and 24h0m1s
is invalid. -/
theorem C2_amended_is_valid_iff (t : EmailVerificationToken) (now : Int) :
    t.is_valid now = true ↔ now - t.created_at ≤ TOKEN_LIFETIME_SECONDS := by
  simp only [EmailVerificationToken.is_valid, TOKEN_LIFETIME_SECONDS,
    decide_eq_true_eq, ge_iff_le]
  omega

/-- C5: after the delete-then-create step of `send_verification_email`,
exactly one verification token exists for the identity — the freshly
created one; any previously existing token rows were deleted first. -/
theorem C5_issue_exactly_one_token (db : DB) (userId tokenValue : Nat) (now : Int)
    (mail : MailResult) :
    ((send_verification_email db userId tokenValue now mail).1.tokens.filter
      (fun t => t.userId == userId)) = [freshToken userId tokenValue now] := by
  exact send_verification_email_tokens db userId tokenValue now mail

/-- C1: consuming a stored token that is within the validity window sets the
owning identity's `is_active`, sets the owning profile's `verified`, deletes
the token, and a second consume of the same token value then takes the
`DoesNotExist` path (the generic invalid outcome). -/
theorem C1_verify_email_consumes_valid_token (db : DB) (tokenValue : Nat) (now : Int)
    (t : EmailVerificationToken)
    (hfilter : db.tokens.filter (fun t2 => t2.token == tokenValue) = [t])
    (hvalid : t.is_valid now = true) :
    (verify_email db tokenValue now).1 = .verified ∧
    (∀ u ∈ (verify_email db tokenValue now).2.users, u.id = t.userId → u.is_active = true) ∧
    (∀ p ∈ (verify_email db tokenValue now).2.profiles, p.userId = t.userId → p.verified = true) ∧
    (verify_email db tokenValue now).2.tokens.filter (fun t2 => t2.token == tokenValue) = [] ∧
    (verify_email (verify_email db tokenValue now).2 tokenValue now).1 = .invalidNotFound := by
  have hve : verify_email db tokenValue now =
      (.verified,
        { users := db.users.map
            (fun u => if u.id == t.userId then { u with is_active := true } else u),
          profiles := db.profiles.map
            (fun p => if p.userId == t.userId then { p with verified := true } else p),
          tokens := db.tokens.filter (fun t2 => !(t2.token == tokenValue)) }) := by
    unfold verify_email
    rw [hfilter]
    simp [hvalid]
  have htok : (db.tokens.filter (fun t2 => !(t2.token == tokenValue))).filter
      (fun t2 => t2.token == tokenValue) = [] := by
    rw [List.filter_filter]
    apply List.filter_eq_nil_iff.2
    intro a _
    simp
  refine ⟨by rw [hve], ?_, ?_, ?_, ?_⟩
  · rw [hve]
    intro u hu hid
    obtain ⟨v, hv, hvu⟩ := List.mem_map.1 hu
    by_cases hb : v.id = t.userId
    · rw [← hvu]; simp [hb]
    · exfalso
      rw [← hvu] at hid
      simp [hb] at hid
  · rw [hve]
    intro p hp hid
    obtain ⟨q, hq, hqp⟩ := List.mem_map.1 hp
    by_cases hb : q.userId = t.userId
    · rw [← hqp]; simp [hb]
    · exfalso
      rw [← hqp] at hid
      simp [hb] at hid
  · rw [hve]
    exact htok
  · rw [hve]
    unfold verify_email
    rw [htok]

/-- C1 witness: the scenario at a concrete store — one inactive user, its
default profile, one token issued at time 0 and consumed at time 100. -/
theorem C1_verify_email_consumes_valid_token_witness :
    (DB.mk [⟨1, "a", "a@e.com", "p", false⟩] [defaultProfile 1]
        [freshToken 1 77 0]).tokens.filter
      (fun t2 => t2.token == 77) = [freshToken 1 77 0] ∧
    (freshToken 1 77 0).is_valid 100 = true ∧
    ((verify_email (DB.mk [⟨1, "a", "a@e.com", "p", false⟩] [defaultProfile 1]
        [freshToken 1 77 0]) 77 100).1 = .verified ∧
      (∀ u ∈ (verify_email (DB.mk [⟨1, "a", "a@e.com", "p", false⟩] [defaultProfile 1]
          [freshToken 1 77 0]) 77 100).2.users,
        u.id = (freshToken 1 77 0).userId → u.is_active = true) ∧
      (∀ p ∈ (verify_email (DB.mk [⟨1, "a", "a@e.com", "p", false⟩] [defaultProfile 1]
          [freshToken 1 77 0]) 77 100).2.profiles,
        p.userId = (freshToken 1 77 0).userId → p.verified = true) ∧
      (verify_email (DB.mk [⟨1, "a", "a@e.com", "p", false⟩] [defaultProfile 1]
          [freshToken 1 77 0]) 77 100).2.tokens.filter
        (fun t2 => t2.token == 77) = [] ∧
      (verify_email (verify_email (DB.mk [⟨1, "a", "a@e.com", "p", false⟩]
          [defaultProfile 1] [freshToken 1 77 0]) 77 100).2 77 100).1 = .invalidNotFound) :=
  ⟨by decide, by decide,
    C1_verify_email_consumes_valid_token _ 77 100 (freshToken 1 77 0)
      (by decide) (by decide)⟩

/-- C3 counterexample: an identifier that is one record's username and
another record's email makes `authenticate` raise `MultipleObjectsReturned`
instead of returning the no-identity failure the claim demands. -/
theorem C3_counterexample_ambiguous_match_raises :
    authenticate [⟨1, "carol", "carol@example.com", "pw1", true⟩,
        ⟨2, "dave", "CAROL", "pw2", true⟩] "carol" "pw1" =
      .raisedMultipleObjectsReturned ∧
    authenticate [⟨1, "carol", "carol@example.com", "pw1", true⟩,
        ⟨2, "dave", "CAROL", "pw2", true⟩] "carol" "pw1" ≠ .failure := by
  decide

/-- C3 (amended): a zero-match lookup fails authentication via the caught
`DoesNotExist`; a more-than-one-match lookup does not fail closed but lets
the uncaught `MultipleObjectsReturned` exception propagate. -/
theorem C3_amended_zero_or_ambiguous (users : List User) (username password : String) :
    (users.filter (matchesIdentifier username) = [] →
      authenticate users username password = .failure) ∧
    (∀ u v l, users.filter (matchesIdentifier username) = u :: v :: l →
      authenticate users username password = .raisedMultipleObjectsReturned) := by
  constructor
  · intro h
    simp [authenticate, h]
  · intro u v l h
    simp [authenticate, h]

/-- C3 witness: the amended statement applied to an empty store and to a
concrete crafted username/email collision. -/
theorem C3_amended_zero_or_ambiguous_witness :
    authenticate [] "x" "p" = .failure ∧
    authenticate [⟨1, "carol", "c@e.com", "pw1", true⟩,
        ⟨2, "dave", "carol", "pw2", true⟩] "carol" "p" =
      .raisedMultipleObjectsReturned := by
  constructor
  · exact (C3_amended_zero_or_ambiguous [] "x" "p").1 rfl
  · exact (C3_amended_zero_or_ambiguous _ "carol" "p").2
      ⟨1, "carol", "c@e.com", "pw1", true⟩ ⟨2, "dave", "carol", "pw2", true⟩ []
      (by decide)

/-- C4: when every stored token carrying the requested value is outside the
validity window (which covers the no-match case), `verify_email` leaves the
user table and the profile table exactly as they were. -/
theorem C4_failure_paths_no_mutation (db : DB) (tokenValue : Nat) (now : Int)
    (h : ∀ t ∈ db.tokens, t.token = tokenValue → t.is_valid now = false) :
    (verify_email db tokenValue now).2.users = db.users ∧
    (verify_email db tokenValue now).2.profiles = db.profiles := by
  rcases hf : db.tokens.filter (fun t => t.token == tokenValue) with _ | ⟨t, _ | ⟨t2, ts⟩⟩
  · simp [verify_email, hf]
  · have ht : t ∈ db.tokens.filter (fun t => t.token == tokenValue) := by
      rw [hf]; exact List.mem_singleton.2 rfl
    obtain ⟨htl, htv⟩ := List.mem_filter.1 ht
    have hiv : t.is_valid now = false := h t htl (by simpa using htv)
    simp [verify_email, hf, hiv]
  · simp [verify_email, hf]

/-- C4 witness: consuming a token issued at time 0 two days later leaves
users and profiles untouched. -/
theorem C4_failure_paths_no_mutation_witness :
    (∀ t ∈ (DB.mk [⟨1, "a", "a@e.com", "p", false⟩] [defaultProfile 1]
        [freshToken 1 77 0]).tokens,
      t.token = 77 → t.is_valid 172800 = false) ∧
    ((verify_email (DB.mk [⟨1, "a", "a@e.com", "p", false⟩] [defaultProfile 1]
        [freshToken 1 77 0]) 77 172800).2.users =
      (DB.mk [⟨1, "a", "a@e.com", "p", false⟩] [defaultProfile 1]
        [freshToken 1 77 0]).users ∧
     (verify_email (DB.mk [⟨1, "a", "a@e.com", "p", false⟩] [defaultProfile 1]
        [freshToken 1 77 0]) 77 172800).2.profiles =
      (DB.mk [⟨1, "a", "a@e.com", "p", false⟩] [defaultProfile 1]
        [freshToken 1 77 0]).profiles) :=
  ⟨by decide, C4_failure_paths_no_mutation _ 77 172800 (by decide)⟩

/-- C8: with the one-to-one constraint (at most one profile per user, none
for an id absent from the user table), any save of a user leaves exactly
one profile owned by it: created on identity creation, re-created when
found missing. -/
theorem C8_exactly_one_profile_after_save (db : DB) (u : User)
    (huniq : (db.profiles.filter (fun p => p.userId == u.id)).length ≤ 1)
    (hfresh : userExists db.users u.id = false →
      db.profiles.filter (fun p => p.userId == u.id) = []) :
    ((saveUser db u).profiles.filter (fun p => p.userId == u.id)).length = 1 := by
  rw [saveUser_profiles]
  cases he : userExists db.users u.id
  · have h0 := hfresh he
    simp [List.filter_append, h0, defaultProfile]
  · cases hp : profileExists db.profiles u.id
    · have h0 : db.profiles.filter (fun p => p.userId == u.id) = [] := by
        apply List.filter_eq_nil_iff.2
        intro p hpmem hpe
        have hx : profileExists db.profiles u.id = true :=
          List.any_eq_true.2 ⟨p, hpmem, hpe⟩
        rw [hp] at hx
        exact Bool.false_ne_true hx
      simp [List.filter_append, h0, defaultProfile]
    · obtain ⟨p, hpm, hpp⟩ := List.any_eq_true.1 hp
      have hmem : p ∈ db.profiles.filter (fun p => p.userId == u.id) :=
        List.mem_filter.2 ⟨hpm, hpp⟩
      have h1 : 0 < (db.profiles.filter (fun p => p.userId == u.id)).length :=
        List.length_pos.2 (List.ne_nil_of_mem hmem)
      simp only [if_true]
      omega

/-- C8 witness: saving a fresh user into an empty store leaves it with
exactly one profile. -/
theorem C8_exactly_one_profile_after_save_witness :
    ((DB.mk [] [] []).profiles.filter (fun p => p.userId == 1)).length ≤ 1 ∧
    (userExists (DB.mk [] [] []).users 1 = false →
      (DB.mk [] [] []).profiles.filter (fun p => p.userId == 1) = []) ∧
    ((saveUser (DB.mk [] [] []) ⟨1, "a", "a@e.com", "p", true⟩).profiles.filter
      (fun p => p.userId == 1)).length = 1 :=
  ⟨by decide, by decide,
    C8_exactly_one_profile_after_save (DB.mk [] [] [])
      ⟨1, "a", "a@e.com", "p", true⟩ (by decide) (by decide)⟩

/-- C9: on a valid registration input, `register_view` redirects to the
verification-sent page, persists the new identity with `is_active = false`,
and the issued token survives even when mail delivery raises: the failure is
absorbed inside `send_verification_email` and the token is not rolled
back. -/
theorem C9_register_completes_despite_delivery_error (db : DB) (newUser : User)
    (tokenValue : Nat) (now : Int) (mail : MailResult) :
    (register_view db newUser tokenValue now true mail).1 = .redirectVerificationSent ∧
    (∃ u ∈ (register_view db newUser tokenValue now true mail).2.users,
      u.id = newUser.id ∧ u.is_active = false) ∧
    (register_view db newUser tokenValue now true mail).2.tokens.filter
      (fun t => t.userId == newUser.id) = [freshToken newUser.id tokenValue now] := by
  refine ⟨rfl, ?_, ?_⟩
  · refine ⟨{ newUser with is_active := false }, ?_, rfl, rfl⟩
    show { newUser with is_active := false } ∈
      ((send_verification_email (saveUser db { newUser with is_active := false })
        newUser.id tokenValue now mail).1).users
    rw [send_verification_email_users]
    exact mem_users_saveUser _ _
  · exact send_verification_email_tokens _ _ _ _ _

/-- Removing a freshly added unrelated item undoes the add exactly. -/
theorem m2mRemove_m2mAdd_of_not_mem [DecidableEq α] {l : List α} {x : α} (h : x ∉ l) :
    m2mRemove (m2mAdd l x) x = l := by
  rw [m2mAdd_of_not_mem h]
  unfold m2mRemove
  rw [List.filter_append]
  have h2 : (l.filter (fun y => decide (y ≠ x))) = l := m2mRemove_of_not_mem h
  simp [h2]
  exact fun a ha hax => h (hax ▸ ha)

/-- C6: for each catalog kind, toggling the same item twice in sequence
restores the membership that held before the first toggle, and the two XHR
responses report opposite states: the product endpoint's `is_favourite`
boolean flips, and the prompt/template endpoints answer `removed` then
`saved` (or `saved` then `removed` when the item was initially absent). -/
theorem C6_toggle_twice_restores (products : List String) (prompts : List Nat)
    (templates : List String) (profile : UserProfile) (product_slug : String)
    (prompt_id : Nat) (slug : String)
    (hp : product_slug ∈ products) (hq : prompt_id ∈ prompts) (ht : slug ∈ templates) :
    (∃ p1 p2,
      add_favourite_product products profile product_slug true =
        some (.jsonProduct "success" (!decide (product_slug ∈ profile.favourite_products)), p1) ∧
      add_favourite_product products p1 product_slug true =
        some (.jsonProduct "success" (decide (product_slug ∈ profile.favourite_products)), p2) ∧
      ∀ x, x ∈ p2.favourite_products ↔ x ∈ profile.favourite_products) ∧
    (∃ p1 p2,
      add_favourite_prompt prompts profile prompt_id true =
        some (.jsonStatus (if prompt_id ∈ profile.saved_prompts then "removed" else "saved"), p1) ∧
      add_favourite_prompt prompts p1 prompt_id true =
        some (.jsonStatus (if prompt_id ∈ profile.saved_prompts then "saved" else "removed"), p2) ∧
      ∀ x, x ∈ p2.saved_prompts ↔ x ∈ profile.saved_prompts) ∧
    (∃ p1 p2,
      add_favourite_template templates profile slug true =
        some (.jsonStatus (if slug ∈ profile.saved_templates then "removed" else "saved"), p1) ∧
      add_favourite_template templates p1 slug true =
        some (.jsonStatus (if slug ∈ profile.saved_templates then "saved" else "removed"), p2) ∧
      ∀ x, x ∈ p2.saved_templates ↔ x ∈ profile.saved_templates) := by
  refine ⟨?_, ?_, ?_⟩
  · by_cases hmem : product_slug ∈ profile.favourite_products
    · refine ⟨{ profile with favourite_products := m2mRemove profile.favourite_products product_slug },
        { profile with favourite_products := m2mAdd (m2mRemove profile.favourite_products product_slug) product_slug },
        ?_, ?_, ?_⟩
      · simp [add_favourite_product, hp, hmem]
      · simp [add_favourite_product, hp, hmem, not_mem_m2mRemove]
      · exact mem_m2mAdd_m2mRemove hmem
    · refine ⟨{ profile with favourite_products := m2mAdd profile.favourite_products product_slug },
        { profile with favourite_products := m2mRemove (m2mAdd profile.favourite_products product_slug) product_slug },
        ?_, ?_, ?_⟩
      · simp [add_favourite_product, hp, hmem]
      · simp [add_favourite_product, hp, hmem, mem_m2mAdd_self]
      · simp [m2mRemove_m2mAdd_of_not_mem hmem]
  · by_cases hmem : prompt_id ∈ profile.saved_prompts
    · refine ⟨{ profile with saved_prompts := m2mRemove profile.saved_prompts prompt_id },
        { profile with saved_prompts := m2mAdd (m2mRemove profile.saved_prompts prompt_id) prompt_id },
        ?_, ?_, ?_⟩
      · simp [add_favourite_prompt, hq, hmem]
      · simp [add_favourite_prompt, hq, hmem, not_mem_m2mRemove]
      · exact mem_m2mAdd_m2mRemove hmem
    · refine ⟨{ profile with saved_prompts := m2mAdd profile.saved_prompts prompt_id },
        { profile with saved_prompts := m2mRemove (m2mAdd profile.saved_prompts prompt_id) prompt_id },
        ?_, ?_, ?_⟩
      · simp [add_favourite_prompt, hq, hmem]
      · simp [add_favourite_prompt, hq, hmem, mem_m2mAdd_self]
      · simp [m2mRemove_m2mAdd_of_not_mem hmem]
  · by_cases hmem : slug ∈ profile.saved_templates
    · refine ⟨{ profile with saved_templates := m2mRemove profile.saved_templates slug },
        { profile with saved_templates := m2mAdd (m2mRemove profile.saved_templates slug) slug },
        ?_, ?_, ?_⟩
      · simp [add_favourite_template, ht, hmem]
      · simp [add_favourite_template, ht, hmem, not_mem_m2mRemove]
      · exact mem_m2mAdd_m2mRemove hmem
    · refine ⟨{ profile with saved_templates := m2mAdd profile.saved_templates slug },
        { profile with saved_templates := m2mRemove (m2mAdd profile.saved_templates slug) slug },
        ?_, ?_, ?_⟩
      · simp [add_favourite_template, ht, hmem]
      · simp [add_favourite_template, ht, hmem, mem_m2mAdd_self]
      · simp [m2mRemove_m2mAdd_of_not_mem hmem]

/-- C6 witness: the double toggles at a concrete fresh profile and
one-element catalogs. -/
theorem C6_toggle_twice_restores_witness :
    "p1" ∈ ["p1"] ∧ (5 : Nat) ∈ [5] ∧ "t1" ∈ ["t1"] ∧
    ((∃ p1 p2,
      add_favourite_product ["p1"] (defaultProfile 1) "p1" true =
        some (.jsonProduct "success" (!decide ("p1" ∈ (defaultProfile 1).favourite_products)), p1) ∧
      add_favourite_product ["p1"] p1 "p1" true =
        some (.jsonProduct "success" (decide ("p1" ∈ (defaultProfile 1).favourite_products)), p2) ∧
      ∀ x, x ∈ p2.favourite_products ↔ x ∈ (defaultProfile 1).favourite_products) ∧
    (∃ p1 p2,
      add_favourite_prompt [5] (defaultProfile 1) 5 true =
        some (.jsonStatus (if 5 ∈ (defaultProfile 1).saved_prompts then "removed" else "saved"), p1) ∧
      add_favourite_prompt [5] p1 5 true =
        some (.jsonStatus (if 5 ∈ (defaultProfile 1).saved_prompts then "saved" else "removed"), p2) ∧
      ∀ x, x ∈ p2.saved_prompts ↔ x ∈ (defaultProfile 1).saved_prompts) ∧
    (∃ p1 p2,
      add_favourite_template ["t1"] (defaultProfile 1) "t1" true =
        some (.jsonStatus (if "t1" ∈ (defaultProfile 1).saved_templates then "removed" else "saved"), p1) ∧
      add_favourite_template ["t1"] p1 "t1" true =
        some (.jsonStatus (if "t1" ∈ (defaultProfile 1).saved_templates then "saved" else "removed"), p2) ∧
      ∀ x, x ∈ p2.saved_templates ↔ x ∈ (defaultProfile 1).saved_templates)) :=
  ⟨by decide, by decide, by decide,
    C6_toggle_twice_restores ["p1"] [5] ["t1"] (defaultProfile 1) "p1" 5 "t1"
      (by decide) (by decide) (by decide)⟩

/-- C7 counterexample: the product toggle endpoint answers an XHR request
with status `success` (plus an `is_favourite` boolean), not one of `added`,
`removed`, `saved` as the claim states for every toggle endpoint. -/
theorem C7_counterexample_product_status :
    add_favourite_product ["p1"] (defaultProfile 1) "p1" true =
      some (.jsonProduct "success" true,
        { defaultProfile 1 with favourite_products := ["p1"] }) ∧
    "success" ≠ "added" ∧ "success" ≠ "removed" ∧ "success" ≠ "saved" := by
  decide

/-- C7 (amended): under the XHR marker, the prompt and template endpoints
answer `saved`/`removed` JSON statuses reflecting the transition just
performed, while the product endpoint answers status `success` together
with an `is_favourite` boolean reflecting the transition. -/
theorem C7_amended_toggle_xhr_json (products : List String) (prompts : List Nat)
    (templates : List String) (profile : UserProfile) (product_slug : String)
    (prompt_id : Nat) (slug : String)
    (hp : product_slug ∈ products) (hq : prompt_id ∈ prompts) (ht : slug ∈ templates) :
    (∃ p1, add_favourite_prompt prompts profile prompt_id true =
      some (.jsonStatus (if prompt_id ∈ profile.saved_prompts then "removed" else "saved"), p1)) ∧
    (∃ p2, add_favourite_template templates profile slug true =
      some (.jsonStatus (if slug ∈ profile.saved_templates then "removed" else "saved"), p2)) ∧
    (∃ p3, add_favourite_product products profile product_slug true =
      some (.jsonProduct "success" (!decide (product_slug ∈ profile.favourite_products)), p3)) := by
  refine ⟨?_, ?_, ?_⟩
  · by_cases hmem : prompt_id ∈ profile.saved_prompts
    · exact ⟨{ profile with saved_prompts := m2mRemove profile.saved_prompts prompt_id },
        by simp [add_favourite_prompt, hq, hmem]⟩
    · exact ⟨{ profile with saved_prompts := m2mAdd profile.saved_prompts prompt_id },
        by simp [add_favourite_prompt, hq, hmem]⟩
  · by_cases hmem : slug ∈ profile.saved_templates
    · exact ⟨{ profile with saved_templates := m2mRemove profile.saved_templates slug },
        by simp [add_favourite_template, ht, hmem]⟩
    · exact ⟨{ profile with saved_templates := m2mAdd profile.saved_templates slug },
        by simp [add_favourite_template, ht, hmem]⟩
  · by_cases hmem : product_slug ∈ profile.favourite_products
    · exact ⟨{ profile with favourite_products := m2mRemove profile.favourite_products product_slug },
        by simp [add_favourite_product, hp, hmem]⟩
    · exact ⟨{ profile with favourite_products := m2mAdd profile.favourite_products product_slug },
        by simp [add_favourite_product, hp, hmem]⟩

/-- C7 witness: the amended statement at a concrete fresh profile and
one-element catalogs. -/
theorem C7_amended_toggle_xhr_json_witness :
    "p2" ∈ ["p2"] ∧ (9 : Nat) ∈ [9] ∧ "t2" ∈ ["t2"] ∧
    ((∃ p1, add_favourite_prompt [9] (defaultProfile 2) 9 true =
      some (.jsonStatus (if 9 ∈ (defaultProfile 2).saved_prompts then "removed" else "saved"), p1)) ∧
    (∃ p2, add_favourite_template ["t2"] (defaultProfile 2) "t2" true =
      some (.jsonStatus (if "t2" ∈ (defaultProfile 2).saved_templates then "removed" else "saved"), p2)) ∧
    (∃ p3, add_favourite_product ["p2"] (defaultProfile 2) "p2" true =
      some (.jsonProduct "success" (!decide ("p2" ∈ (defaultProfile 2).favourite_products)), p3))) :=
  ⟨by decide, by decide, by decide,
    C7_amended_toggle_xhr_json ["p2"] [9] ["t2"] (defaultProfile 2) "p2" 9 "t2"
      (by decide) (by decide) (by decide)⟩

/-- C10: the public resources preview returns at most 4 resources, all of
them active, ordered by display order ascending and creation timestamp
descending on ties. -/
theorem C10_public_resources_preview_shape (resources : List MemberResource) :
    (public_resources_preview resources).length ≤ 4 ∧
    (∀ r ∈ public_resources_preview resources, r.is_active = true) ∧
    (public_resources_preview resources).Pairwise resourceOrder := by
  refine ⟨List.length_take_le 4 _, ?_, ?_⟩
  · intro r hr
    have hr2 : r ∈ List.insertionSort resourceOrder
        (resources.filter (fun r => r.is_active)) :=
      List.mem_of_mem_take hr
    have hr3 : r ∈ resources.filter (fun r => r.is_active) :=
      (List.perm_insertionSort resourceOrder _).mem_iff.1 hr2
    exact List.of_mem_filter hr3
  · exact List.Pairwise.sublist (List.take_sublist 4 _)
      (List.sorted_insertionSort resourceOrder _)
